import Mathlib

/-!
Shallow embedding of the `personal-assistant-onecore` configuration / prompt
assembly core: `ConfigLoader` (src/src/core/config_loader.py),
`PromptBuilder` (src/core/prompt_builder.py), `SessionMemory`
(src/core/memory.py), `LogManager` (src/core/logger.py) and `LLMService`
(src/core/llm_service.py).  File-system access is made explicit: each
operation that in Python reads a file here takes the observable state of
that file (`Option` = path may not exist) as an argument, and Python
object mutation becomes explicit state passing.
-/

namespace OneCore

/-- A YAML/JSON scalar value as it appears in the configuration document.
Decimal literals such as `0.2` are carried symbolically as mantissa and
power-of-ten exponent (`vnum 2 1` = 0.2); the service never computes with
them, it only forwards them. -/
inductive Value where
  | vstr (s : String)
  | vint (n : Int)
  | vnum (mantissa : Int) (exp10 : Nat)
  | vbool (b : Bool)
  deriving DecidableEq, Repr

/-- Python truthiness of a configuration value (used by
`if system_prompt:` in `build_messages`/`send_message`). -/
def Value.truthy : Value → Bool
  | .vstr s => s ≠ ""
  | .vint n => n ≠ 0
  | .vnum m _ => m ≠ 0
  | .vbool b => b

/-- The configuration document: a Python `dict` in insertion order. -/
abbrev Config := List (String × Value)

/-- Python `config[k]` / `config.get(k)`: first binding of `k`, if any. -/
def dictGet (cfg : Config) (k : String) : Option Value :=
  (cfg.find? (fun kv => kv.1 = k)).map (·.2)

/-- Python `config.get(k, d)`. -/
def dictGetD (cfg : Config) (k : String) (d : Value) : Value :=
  (dictGet cfg k).getD d

/-- Python `k in config`. -/
def dictHas (cfg : Config) (k : String) : Bool :=
  (dictGet cfg k).isSome

/-! ## ConfigLoader (src/src/core/config_loader.py) -/

namespace ConfigLoader

/-- Observable state of the config file on disk: its stat mtime and the
result of `yaml.safe_load` on its contents (`none` when parsing raises,
or when the parse does not yield a mapping the validation loop can probe). -/
structure FileState where
  mtime : Int
  doc : Option Config
  deriving DecidableEq

/-- Python `ConfigLoader` instance state: `self.config` and `self.last_mtime`. -/
structure State where
  config : Option Config
  last_mtime : Option Int
  deriving DecidableEq

/-- Python `required_fields = ['model', 'temperature', 'max_tokens']` -/
def requiredFields : List String := ["model", "temperature", "max_tokens"]

/-- Python `ConfigLoader.load`: raises (`.error`) when the path is missing, the
YAML does not parse, or a required field is absent; on success replaces
the cached document and records the file's mtime. -/
def load (st : State) (fs : Option FileState) : Except String (Config × State) :=
  match fs with
  | none => .error "FileNotFoundError"
  | some f =>
    match f.doc with
    | none => .error "yaml parse error"
    | some cfg =>
      if requiredFields.all (fun fld => dictHas cfg fld) then
        .ok (cfg, { config := some cfg, last_mtime := some f.mtime })
      else
        .error "Missing required config field"

/-- Python `ConfigLoader.check_and_reload`: result is `((was_reloaded, config),
new instance state)`. -/
def check_and_reload (st : State) (fs : Option FileState) :
    (Bool × Option Config) × State :=
  match fs with
  | none => ((false, st.config), st)
  | some f =>
    let changed := match st.last_mtime with
      | none => true
      | some m => f.mtime > m
    if changed then
      match load st fs with
      | .ok (cfg, st') => ((true, some cfg), st')
      | .error _ => ((false, st.config), st)
    else
      ((false, st.config), st)

/-- Python `ConfigLoader.get_config`: returns the cached document, performing an
initial `load()` if never loaded. -/
def get_config (st : State) (fs : Option FileState) :
    Except String (Config × State) :=
  match st.config with
  | some cfg => .ok (cfg, st)
  | none => load st fs

end ConfigLoader

/-! ## PromptBuilder (src/core/prompt_builder.py) -/

/-- Observable state of a template file on disk: its stat mtime and the
behaviour of the compiled Jinja template as a function of the two
variables the system passes (`user_input`, `config`). -/
structure TFile where
  mtime : Int
  render : String → Config → String

namespace PromptBuilder

/-- Python `PromptBuilder` instance state: primary slot (`self.template`,
`self.last_mtime`) and secondary/user slot (`self.user_template`,
`self.user_last_mtime`), each holding a compiled template when loaded. -/
structure State where
  template : Option (String → Config → String)
  last_mtime : Option Int
  user_template : Option (String → Config → String)
  user_last_mtime : Option Int

/-- Python `PromptBuilder.load`: raises when the primary template path is
missing, otherwise caches the compiled template and its mtime. -/
def load (st : State) (fsP : Option TFile) :
    Except String ((String → Config → String) × State) :=
  match fsP with
  | none => .error "Template file not found"
  | some f =>
    .ok (f.render, { st with template := some f.render, last_mtime := some f.mtime })

/-- Python `PromptBuilder.render`: lazily loads the primary template if needed,
then renders it with the supplied variables. -/
def render (st : State) (fsP : Option TFile) (user_input : String) (config : Config) :
    Except String (String × State) :=
  match st.template with
  | some t => .ok (t user_input config, st)
  | none =>
    match load st fsP with
    | .error e => .error e
    | .ok (t, st') => .ok (t user_input config, st')

/-- Python `PromptBuilder.load_user_template`: returns without change when the
user template path does not exist, otherwise caches it and its mtime. -/
def load_user_template (st : State) (fsU : Option TFile) : State :=
  match fsU with
  | none => st
  | some f =>
    { st with user_template := some f.render, user_last_mtime := some f.mtime }

/-- Python `PromptBuilder.check_and_reload_user_template`: strict greater-than
mtime rule on the user template slot. -/
def check_and_reload_user_template (st : State) (fsU : Option TFile) :
    Bool × State :=
  match fsU with
  | none => (false, st)
  | some f =>
    let changed := match st.user_last_mtime with
      | none => true
      | some m => f.mtime > m
    if changed then (true, load_user_template st fsU) else (false, st)

/-- Python `PromptBuilder.render_user`: checks the user template for changes,
lazily loads it if still unloaded, and falls back to the raw
`user_input` when no user template exists. -/
def render_user (st : State) (fsU : Option TFile) (user_input : String)
    (config : Config) : String × State :=
  let st1 := (check_and_reload_user_template st fsU).2
  let st2 := match st1.user_template with
    | none => load_user_template st1 fsU
    | some _ => st1
  match st2.user_template with
  | none => (user_input, st2)
  | some t => (t user_input config, st2)

end PromptBuilder

/-! ## LogManager (src/core/logger.py) -/

namespace LogManager

/-- Python `PRIMARY_COMPONENTS`: curated component → (default level, underlying
logger categories).  Levels are the numeric `logging` values: DEBUG = 10,
INFO = 20, WARNING = 30, ERROR = 40. -/
def PRIMARY_COMPONENTS : List (String × Nat × List String) :=
  [("prompt", 20, ["app.prompt"]),
   ("http", 30, ["openai", "httpx", "httpcore"]),
   ("langchain", 30, ["langchain"]),
   ("orchestrator", 20, ["orchestrator"]),
   ("mcp", 20, ["mcp"])]

/-- Python `NOISY_DEFAULTS`: third-party categories silenced at construction. -/
def NOISY_DEFAULTS : List (String × Nat) :=
  [("asyncio", 30), ("urllib3", 30), ("httpcore.connection", 30),
   ("httpcore.http11", 30), ("markdown_it", 30)]

/-- The process-wide logging state the manager manipulates: the root
logger's level and every named logger's level. -/
structure State where
  root : Nat
  levels : String → Nat

/-- Python `logging.getLogger(name).setLevel(l)`. -/
def setLoggerLevel (lv : String → Nat) (name : String) (l : Nat) :
    String → Nat :=
  fun n => if n = name then l else lv n

/-- Python `LogManager.__init__`: starting from the pre-existing logging state,
applies each curated component's default to its categories, then the
noisy-defaults overrides.  The root level is not touched. -/
def init (root0 : Nat) (levels0 : String → Nat) : State :=
  let lv1 := PRIMARY_COMPONENTS.foldl
    (fun lv c => c.2.2.foldl (fun lv name => setLoggerLevel lv name c.2.1) lv)
    levels0
  let lv2 := NOISY_DEFAULTS.foldl
    (fun lv p => setLoggerLevel lv p.1 p.2) lv1
  { root := root0, levels := lv2 }

/-- The component names a `set_level(component, ...)` call resolves to:
`"all"` expands to every curated component, a curated name to itself,
anything else to a structured failure. -/
def componentsFor (component : String) : Option (List String) :=
  if component = "all" then some (PRIMARY_COMPONENTS.map (·.1))
  else if PRIMARY_COMPONENTS.any (fun c => c.1 = component) then some [component]
  else none

/-- Python `LogManager.set_level`: `"all"` expands to every curated component; an
unknown name is a structured failure; the root is lowered first when the
requested level is below it; then every logger category of the selected
component(s) is set to the level. -/
def set_level (st : State) (component : String) (level : Nat) : Bool × State :=
  match componentsFor component with
  | none => (false, st)
  | some cs =>
    let root' := if st.root > level then level else st.root
    let lv' := cs.foldl
      (fun lv comp =>
        match PRIMARY_COMPONENTS.find? (fun c => c.1 = comp) with
        | none => lv
        | some c => c.2.2.foldl (fun lv name => setLoggerLevel lv name level) lv)
      st.levels
    (true, { root := root', levels := lv' })

/-- A sequence of `set_level` calls, applied in order. -/
def applyCalls (st : State) (calls : List (String × Nat)) : State :=
  calls.foldl (fun s c => (set_level s c.1 c.2).2) st

/-- The hierarchy condition of the spec, as an executable check: the root
level is `≤` the level of every curated component's logger categories. -/
def invB (st : State) : Bool :=
  PRIMARY_COMPONENTS.all (fun c => c.2.2.all (fun name => st.root ≤ st.levels name))

/-- Propositional form of the hierarchy condition. -/
def Inv (st : State) : Prop := invB st = true

instance (st : State) : Decidable (Inv st) := by unfold Inv; infer_instance

end LogManager

/-! ## SessionMemory (src/core/memory.py) and messages -/

/-- A LangChain chat message, restricted to the three kinds this system
constructs (`SystemMessage` / `HumanMessage` / `AIMessage`). -/
inductive Msg where
  | system (content : String)
  | human (content : String)
  | ai (content : String)
  deriving DecidableEq, Repr

/-- Python `.content` of a message. -/
def Msg.content : Msg → String
  | .system c => c
  | .human c => c
  | .ai c => c

/-- Python `.type` of a LangChain message: the role discriminator used by
`get_history`. -/
def Msg.type : Msg → String
  | .system _ => "system"
  | .human _ => "human"
  | .ai _ => "ai"

/-- Python `SessionMemory.sessions`: the dict of per-session message logs, in
insertion order. -/
abbrev Memory := List (String × List Msg)

/-- Python `session_id in self.sessions` / `self.sessions[session_id]`. -/
def memLookup (mem : Memory) (session_id : String) : Option (List Msg) :=
  (mem.find? (fun s => s.1 = session_id)).map (·.2)

/-- The stored log of a session (empty when the session is unknown). -/
def storedLog (mem : Memory) (session_id : String) : List Msg :=
  (memLookup mem session_id).getD []

/-- Python `SessionMemory.get_session`: returns the existing log, or registers
a fresh empty one (dict insertion appends at the end). -/
def get_session (mem : Memory) (session_id : String) : List Msg × Memory :=
  match memLookup mem session_id with
  | some h => (h, mem)
  | none => ([], mem ++ [(session_id, [])])

/-- Python `InMemoryChatHistory.add_message` on the history object stored under
`session_id`: appends to the first (hence, with dict-unique keys, the
only) entry for that session; no-op when the session is unknown. -/
def add_message (mem : Memory) (session_id : String) (m : Msg) : Memory :=
  match mem with
  | [] => []
  | s :: rest =>
    if s.1 = session_id then (s.1, s.2 ++ [m]) :: rest
    else s :: add_message rest session_id m

/-- Python `SessionMemory.clear_session`: empties the log in place if present. -/
def clear_session (mem : Memory) (session_id : String) : Memory :=
  match mem with
  | [] => []
  | s :: rest =>
    if s.1 = session_id then (s.1, []) :: rest
    else s :: clear_session rest session_id

/-! ## LLMService (src/core/llm_service.py) -/

/-- The service's mutable collaborators: the config loader, the prompt
builder and the session memory. -/
structure SvcState where
  loader : ConfigLoader.State
  pb : PromptBuilder.State
  sessions : Memory

/-- Python `LLMService.build_messages`: optional system message (primary
template rendered with `{user_input, config}`, included only when
`config.get("system_prompt", "")` is truthy), then the session's stored
messages, then the current human message.  The debug and non-debug paths
of the source build the identical list; only their console output
differs. -/
def build_messages (st : SvcState) (fsC : Option ConfigLoader.FileState)
    (fsP : Option TFile) (user_input session_id : String) :
    Except String (List Msg × SvcState) :=
  match ConfigLoader.get_config st.loader fsC with
  | .error e => .error e
  | .ok (config, ld') =>
    match (if (dictGetD config "system_prompt" (Value.vstr "")).truthy then
             (PromptBuilder.render st.pb fsP user_input config).map
               (fun r => ([Msg.system r.1], r.2))
           else .ok ([], st.pb)) with
    | .error e => .error e
    | .ok (sysMsgs, pb') =>
      let (history, mem') := get_session st.sessions session_id
      .ok (sysMsgs ++ history ++ [Msg.human user_input],
           { loader := ld', pb := pb', sessions := mem' })

/-- Python `LLMService.build_api_params`: `model` is extracted (a `KeyError`
when absent); every other key except the reserved two is forwarded
verbatim, in iteration order, into the call parameters. -/
def build_api_params (st : ConfigLoader.State) (fsC : Option ConfigLoader.FileState) :
    Except String (Value × List (String × Value) × ConfigLoader.State) :=
  match ConfigLoader.get_config st fsC with
  | .error e => .error e
  | .ok (config, ld') =>
    match dictGet config "model" with
    | none => .error "KeyError: model"
    | some model =>
      let kwargs := config.foldl
        (fun acc kv =>
          if kv.1 = "system_prompt" ∨ kv.1 = "model" then acc else acc ++ [kv])
        []
      .ok (model, kwargs, ld')

/-- Python `LLMService._messages_to_dict`: role names used in the logged JSON. -/
def messages_to_dict (msgs : List Msg) : List (String × String) :=
  msgs.map fun m =>
    match m with
    | .system c => ("system", c)
    | .human c => ("user", c)
    | .ai c => ("assistant", c)

/-- What one `self.logger.info` call of `send_message` records: the model,
the forwarded parameters and the message dicts — either the full
assembled sequence or the reconstructed current turn. -/
inductive LogEntry where
  | fullHistory (model : Value) (kwargs : List (String × Value))
      (messages : List (String × String))
  | currentTurn (model : Value) (kwargs : List (String × Value))
      (messages : List (String × String))
  deriving DecidableEq, Repr

/-- The transport collaborator (`OpenRouterClient.chat_completion`):
`(model, messages, params) → reply text`, or an error. -/
abbrev Transport := Value → List Msg → List (String × Value) → Except String String

/-- The tail of `send_message` after the logging step: single transport
attempt; on success the human message and the assistant reply are
appended, in that order, to the session's log. -/
def dispatch_and_persist (transport : Transport) (model : Value)
    (messages : List Msg) (kwargs : List (String × Value)) (entry : LogEntry)
    (st : SvcState) (user_input session_id : String) :
    Except String String × Option LogEntry × SvcState :=
  match transport model messages kwargs with
  | .error e => (.error e, some entry, st)
  | .ok response =>
    let (_, mem1) := get_session st.sessions session_id
    let mem2 := add_message mem1 session_id (Msg.human user_input)
    let mem3 := add_message mem2 session_id (Msg.ai response)
    (.ok response, some entry, { st with sessions := mem3 })

/-- Python `LLMService.send_message`: build messages, derive parameters, log
(full-history or current-turn mode), dispatch, persist.  The result is
`(reply or propagated error, what was logged if the logging step was
reached, final collaborator state)`. -/
def send_message (st : SvcState) (fsC : Option ConfigLoader.FileState)
    (fsP fsU : Option TFile) (transport : Transport)
    (user_input session_id : String) (log_full_history : Bool) :
    Except String String × Option LogEntry × SvcState :=
  match build_messages st fsC fsP user_input session_id with
  | .error e => (.error e, none, st)
  | .ok (messages, st1) =>
    match build_api_params st1.loader fsC with
    | .error e => (.error e, none, st1)
    | .ok (model, kwargs, ld2) =>
      let st2 : SvcState := { st1 with loader := ld2 }
      if log_full_history then
        let entry := LogEntry.fullHistory model kwargs (messages_to_dict messages)
        dispatch_and_persist transport model messages kwargs entry st2
          user_input session_id
      else
        match ConfigLoader.get_config st2.loader fsC with
        | .error e => (.error e, none, st2)
        | .ok (config, ld3) =>
          let st3 : SvcState := { st2 with loader := ld3 }
          match (if (dictGetD config "system_prompt" (Value.vstr "")).truthy then
                   (PromptBuilder.render st3.pb fsP user_input config).map
                     (fun r => ([Msg.system r.1], r.2))
                 else .ok ([], st3.pb)) with
          | .error e => (.error e, none, st3)
          | .ok (sysMsgs, pb4) =>
            let (rendered_user, pb5) :=
              PromptBuilder.render_user pb4 fsU user_input config
            let current_turn := sysMsgs ++ [Msg.human rendered_user]
            let entry := LogEntry.currentTurn model kwargs
              (messages_to_dict current_turn)
            let st5 : SvcState := { st3 with pb := pb5 }
            dispatch_and_persist transport model messages kwargs entry st5
              user_input session_id

/-- Python `LLMService.get_history`: projection of the session's stored log to
`{type, content}` records (a fresh list, built by comprehension); the
underlying `get_session` registers an empty session for an unknown id. -/
def get_history (mem : Memory) (session_id : String) :
    List (String × String) × Memory :=
  let (h, mem') := get_session mem session_id
  (h.map (fun m => (m.type, m.content)), mem')

/-- Python `LLMService.clear_history`. -/
def clear_history (mem : Memory) (session_id : String) : Memory :=
  clear_session mem session_id

/-- Modelled from the spec: the primary (system) template file
`templates/prompt.jinja` is not part of the source tree.  Per the spec
the system message is rendered from the primary template with
`{user_input, config}`, and the end-to-end scenario requires the rendered
system message to equal the configuration's `system_prompt` string. -/
def specPrimaryTemplate : String → Config → String :=
  fun _ cfg =>
    match dictGetD cfg "system_prompt" (Value.vstr "") with
    | Value.vstr s => s
    | _ => ""

/-- The end-to-end scenario's configuration:
`{model:"m", temperature:0.2, max_tokens:100, system_prompt:"You are S"}`. -/
def config8 : Config :=
  [("model", Value.vstr "m"), ("temperature", Value.vnum 2 1),
   ("max_tokens", Value.vint 100), ("system_prompt", Value.vstr "You are S")]

/-- Service state for the end-to-end scenario: configuration loaded,
primary template loaded, no user template, empty session memory. -/
def svc8 : SvcState :=
  { loader := { config := some config8, last_mtime := some 0 },
    pb := { template := some specPrimaryTemplate, last_mtime := some 0,
            user_template := none, user_last_mtime := none },
    sessions := [] }

/-- Stubbed transport that replies `"Hello!"`. -/
def transport8 : Transport := fun _ _ _ => .ok "Hello!"

end OneCore

/-! ## Theorems -/

namespace OneCore

/-- Helper: `ConfigLoader.get_config` with a cached document returns it without
touching the file. -/
theorem ConfigLoader.get_config_cached (st : ConfigLoader.State)
    (fs : Option ConfigLoader.FileState) (cfg : Config)
    (h : st.config = some cfg) :
    ConfigLoader.get_config st fs = .ok (cfg, st) := by
  unfold ConfigLoader.get_config
  rw [h]

/-- Helper: `PromptBuilder.render` with a loaded primary template is a pure
application of the cached template. -/
theorem PromptBuilder.render_loaded (st : PromptBuilder.State)
    (fsP : Option TFile) (tpl : String → Config → String)
    (user_input : String) (cfg : Config)
    (h : st.template = some tpl) :
    PromptBuilder.render st fsP user_input cfg = .ok (tpl user_input cfg, st) := by
  unfold PromptBuilder.render
  rw [h]

/-- C4: with a previously successful configuration cached, a failing
reload attempt is swallowed: `check_and_reload` returns
`(false, previous config)` and leaves the cached document and recorded
mtime untouched. -/
theorem configLoader_failed_reload_keeps_previous
    (st : ConfigLoader.State) (fs : Option ConfigLoader.FileState)
    (cfg : Config) (e : String)
    (hprev : st.config = some cfg)
    (hfail : ConfigLoader.load st fs = .error e) :
    ConfigLoader.check_and_reload st fs = ((false, some cfg), st) := by
  unfold ConfigLoader.check_and_reload
  cases fs with
  | none => simp [hprev]
  | some f =>
    simp only
    split
    · rw [hfail]
      simp [hprev]
    · simp [hprev]

/-- Witness for C4 at a concrete state: cached config present, file on
disk fails validation (missing `temperature`/`max_tokens`). -/
theorem configLoader_failed_reload_keeps_previous_witness :
    ConfigLoader.check_and_reload
      { config := some [("model", Value.vstr "m"), ("temperature", Value.vnum 2 1),
                        ("max_tokens", Value.vint 100)],
        last_mtime := some 5 }
      (some { mtime := 7, doc := some [("model", Value.vstr "m2")] })
      = ((false, some [("model", Value.vstr "m"), ("temperature", Value.vnum 2 1),
                       ("max_tokens", Value.vint 100)]),
         { config := some [("model", Value.vstr "m"), ("temperature", Value.vnum 2 1),
                           ("max_tokens", Value.vint 100)],
           last_mtime := some 5 }) :=
  configLoader_failed_reload_keeps_previous _ _ _ "Missing required config field"
    rfl rfl

/-- C5: for a loader that has successfully loaded (cached config and
recorded mtime present): a strictly newer file mtime together with a
successful `load` makes `check_and_reload` return `(true, new config)`;
a file mtime `≤` the recorded one triggers no reload and returns
`(false, cached config)` with the state unchanged. -/
theorem configLoader_reload_monotonicity
    (st : ConfigLoader.State) (m : Int) (cfg : Config)
    (hm : st.last_mtime = some m) (hc : st.config = some cfg) :
    (∀ (f : ConfigLoader.FileState) (cfg' : Config) (st' : ConfigLoader.State),
        f.mtime > m → ConfigLoader.load st (some f) = .ok (cfg', st') →
        ConfigLoader.check_and_reload st (some f) = ((true, some cfg'), st')) ∧
    (∀ f : ConfigLoader.FileState, f.mtime ≤ m →
        ConfigLoader.check_and_reload st (some f) = ((false, some cfg), st)) := by
  constructor
  · intro f cfg' st' hgt hload
    unfold ConfigLoader.check_and_reload
    simp [hm, hgt, hload]
  · intro f hle
    unfold ConfigLoader.check_and_reload
    have hng : ¬ (f.mtime > m) := by omega
    simp [hm, hc, hng]

/-- Witness for C5 at concrete states: mtime 6 > 5 reloads, mtime 5 ≤ 5
does not. -/
theorem configLoader_reload_monotonicity_witness :
    ConfigLoader.check_and_reload
      { config := some [("model", Value.vstr "m"), ("temperature", Value.vnum 2 1),
                        ("max_tokens", Value.vint 100)], last_mtime := some 5 }
      (some { mtime := 6,
              doc := some [("model", Value.vstr "m2"), ("temperature", Value.vnum 3 1),
                           ("max_tokens", Value.vint 50)] })
      = ((true, some [("model", Value.vstr "m2"), ("temperature", Value.vnum 3 1),
                      ("max_tokens", Value.vint 50)]),
         { config := some [("model", Value.vstr "m2"), ("temperature", Value.vnum 3 1),
                           ("max_tokens", Value.vint 50)], last_mtime := some 6 }) ∧
    ConfigLoader.check_and_reload
      { config := some [("model", Value.vstr "m"), ("temperature", Value.vnum 2 1),
                        ("max_tokens", Value.vint 100)], last_mtime := some 5 }
      (some { mtime := 5, doc := none })
      = ((false, some [("model", Value.vstr "m"), ("temperature", Value.vnum 2 1),
                       ("max_tokens", Value.vint 100)]),
         { config := some [("model", Value.vstr "m"), ("temperature", Value.vnum 2 1),
                           ("max_tokens", Value.vint 100)], last_mtime := some 5 }) := by
  constructor
  · exact (configLoader_reload_monotonicity _ 5 _ rfl rfl).1 _ _ _ (by decide) rfl
  · exact (configLoader_reload_monotonicity _ 5 _ rfl rfl).2 _ (by decide)

/-- C6: `render_user` on a builder whose user template file has never
existed (so the slot was never filled and the path is absent) returns
the raw `user_input` unchanged, without error and without state change. -/
theorem render_user_fallback (st : PromptBuilder.State) (s : String)
    (cfg : Config) (h : st.user_template = none) :
    PromptBuilder.render_user st none s cfg = (s, st) := by
  unfold PromptBuilder.render_user PromptBuilder.check_and_reload_user_template
    PromptBuilder.load_user_template
  simp [h]

/-- Witness for C6 at a concrete fresh builder and input `"hi"`. -/
theorem render_user_fallback_witness :
    PromptBuilder.render_user ⟨none, none, none, none⟩ none "hi" [] =
      ("hi", ⟨none, none, none, none⟩) :=
  render_user_fallback ⟨none, none, none, none⟩ "hi" [] rfl

/-- C3 counterexample: the constructor does not touch the root level, so
a freshly constructed `LogManager` over a root logger at WARNING (30)
already violates root ≤ component level after the empty sequence of
`set_level` calls — the `prompt` component's `app.prompt` category is set
to its default INFO (20) while the root stays at 30. -/
theorem logManager_invariant_counterexample :
    ¬ LogManager.Inv
        (LogManager.applyCalls (LogManager.init 30 (fun _ => 30)) []) := by
  decide

/-- Each inner `setLevel` fold leaves a logger's level unchanged or sets
it to the requested level. -/
theorem levels_foldl_cases (level : Nat) (names : List String)
    (lv : String → Nat) (n : String) :
    names.foldl (fun lv name => LogManager.setLoggerLevel lv name level) lv n = lv n ∨
    names.foldl (fun lv name => LogManager.setLoggerLevel lv name level) lv n = level := by
  induction names generalizing lv with
  | nil => left; rfl
  | cons a as ih =>
    simp only [List.foldl_cons]
    rcases ih (LogManager.setLoggerLevel lv a level) with h | h
    · rw [h]
      unfold LogManager.setLoggerLevel
      by_cases hn : n = a
      · right; simp [hn]
      · left; simp [hn]
    · right; exact h

/-- The component fold of `set_level` leaves each logger's level
unchanged or sets it to the requested level. -/
theorem comps_foldl_cases (level : Nat) (cs : List String)
    (lv : String → Nat) (n : String) :
    cs.foldl
      (fun lv comp =>
        match LogManager.PRIMARY_COMPONENTS.find? (fun c => c.1 = comp) with
        | none => lv
        | some c => c.2.2.foldl (fun lv name => LogManager.setLoggerLevel lv name level) lv)
      lv n = lv n ∨
    cs.foldl
      (fun lv comp =>
        match LogManager.PRIMARY_COMPONENTS.find? (fun c => c.1 = comp) with
        | none => lv
        | some c => c.2.2.foldl (fun lv name => LogManager.setLoggerLevel lv name level) lv)
      lv n = level := by
  induction cs generalizing lv with
  | nil => left; rfl
  | cons a as ih =>
    simp only [List.foldl_cons]
    cases hf : LogManager.PRIMARY_COMPONENTS.find? (fun c => c.1 = a) with
    | none => simpa [hf] using ih lv
    | some c =>
      simp only [hf]
      rcases ih (c.2.2.foldl (fun lv name => LogManager.setLoggerLevel lv name level) lv) with h | h
      · rw [h]
        exact levels_foldl_cases level c.2.2 lv n
      · right; exact h

/-- The hierarchy condition unfolded to its propositional form. -/
theorem logManager_inv_iff (st : LogManager.State) :
    LogManager.Inv st ↔
      ∀ c ∈ LogManager.PRIMARY_COMPONENTS, ∀ name ∈ c.2.2,
        st.root ≤ st.levels name := by
  unfold LogManager.Inv LogManager.invB
  simp [List.all_eq_true]

/-- One `set_level` call preserves the hierarchy condition. -/
theorem set_level_preserves_inv (st : LogManager.State) (component : String)
    (level : Nat) (h : LogManager.Inv st) :
    LogManager.Inv (LogManager.set_level st component level).2 := by
  rw [logManager_inv_iff] at h
  cases hcs : LogManager.componentsFor component with
  | none =>
    simp only [LogManager.set_level, hcs]
    rw [logManager_inv_iff]
    exact h
  | some cs =>
    simp only [LogManager.set_level, hcs]
    rw [logManager_inv_iff]
    intro c hc name hname
    simp only
    have hroot1 : (if st.root > level then level else st.root) ≤ st.root := by
      split <;> omega
    have hroot2 : (if st.root > level then level else st.root) ≤ level := by
      split <;> omega
    rcases comps_foldl_cases level cs st.levels name with hcase | hcase
    · rw [hcase]
      exact le_trans hroot1 (h c hc name hname)
    · rw [hcase]
      exact hroot2

/-- C3 amended: the auto-relax step of `set_level` preserves the
root-≤-component condition once it holds (in particular from any
construction whose root starts no higher than every curated default),
and setting `"http"` to DEBUG (10) while the root is WARNING (30) lowers
the root to DEBUG; but the constructor itself does not establish the
condition (see the counterexample). -/
theorem logManager_invariant_amended :
    (∀ (st : LogManager.State) (calls : List (String × Nat)),
        LogManager.Inv st → LogManager.Inv (LogManager.applyCalls st calls)) ∧
    (∀ st : LogManager.State, st.root = 30 →
        ((LogManager.set_level st "http" 10).2).root = 10) := by
  constructor
  · intro st calls h
    induction calls generalizing st with
    | nil => exact h
    | cons c cs ih =>
      exact ih _ (set_level_preserves_inv st c.1 c.2 h)
  · intro st hroot
    have hcs : LogManager.componentsFor "http" = some ["http"] := by decide
    simp [LogManager.set_level, hcs, hroot]

/-- Witness for C3 amended: a construction over a root at INFO satisfies
the condition and keeps it through a `set_level("http", DEBUG)` call; a
state with root WARNING gets root DEBUG from that call. -/
theorem logManager_invariant_amended_witness :
    LogManager.Inv
      (LogManager.applyCalls (LogManager.init 20 (fun _ => 30)) [("http", 10)]) ∧
    ((LogManager.set_level (LogManager.init 30 (fun _ => 30)) "http" 10).2).root = 10 :=
  ⟨logManager_invariant_amended.1 _ _ (by decide),
   logManager_invariant_amended.2 _ (by decide)⟩

/-- The kwargs-building fold of `build_api_params` is a filter. -/
theorem kwargs_foldl_eq_filter (cfg : Config) (acc : List (String × Value)) :
    cfg.foldl
      (fun acc kv =>
        if kv.1 = "system_prompt" ∨ kv.1 = "model" then acc else acc ++ [kv])
      acc
    = acc ++ cfg.filter (fun kv => ¬(kv.1 = "system_prompt" ∨ kv.1 = "model")) := by
  induction cfg generalizing acc with
  | nil => simp
  | cons kv rest ih =>
    simp only [List.foldl_cons, List.filter_cons]
    by_cases h : kv.1 = "system_prompt" ∨ kv.1 = "model"
    · simp [h, ih]
    · simp [h, ih]

/-- C7: with the required keys present and a cached configuration,
`build_api_params` extracts the `model` value and forwards exactly the
remaining key-value pairs, minus the two reserved keys, unchanged. -/
theorem build_api_params_forwarding (st : ConfigLoader.State)
    (fsC : Option ConfigLoader.FileState) (cfg : Config) (model : Value)
    (hcfg : st.config = some cfg)
    (hmodel : dictGet cfg "model" = some model)
    (htemp : dictHas cfg "temperature" = true)
    (hmax : dictHas cfg "max_tokens" = true) :
    build_api_params st fsC =
      .ok (model,
           cfg.filter (fun kv => ¬(kv.1 = "system_prompt" ∨ kv.1 = "model")),
           st) ∧
    ∀ (k : String) (v : Value),
      (k, v) ∈ cfg.filter (fun kv => ¬(kv.1 = "system_prompt" ∨ kv.1 = "model")) ↔
        ((k, v) ∈ cfg ∧ k ≠ "model" ∧ k ≠ "system_prompt") := by
  constructor
  · unfold build_api_params
    rw [ConfigLoader.get_config_cached st fsC cfg hcfg]
    simp only [hmodel, kwargs_foldl_eq_filter cfg [], List.nil_append]
  · intro k v
    simp only [List.mem_filter, decide_eq_true_eq]
    constructor
    · rintro ⟨hmem, hnot⟩
      push_neg at hnot
      exact ⟨hmem, hnot.2, hnot.1⟩
    · rintro ⟨hmem, h1, h2⟩
      exact ⟨hmem, by simp [h1, h2]⟩

/-- Witness for C7 at a concrete configuration with an extra
provider-specific key. -/
theorem build_api_params_forwarding_witness :
    build_api_params
      { config := some [("model", Value.vstr "m"), ("temperature", Value.vnum 2 1),
                        ("max_tokens", Value.vint 100), ("system_prompt", Value.vstr "S"),
                        ("top_p", Value.vnum 9 1)],
        last_mtime := some 3 } none =
      .ok (Value.vstr "m",
           [("model", Value.vstr "m"), ("temperature", Value.vnum 2 1),
            ("max_tokens", Value.vint 100), ("system_prompt", Value.vstr "S"),
            ("top_p", Value.vnum 9 1)].filter
             (fun kv => ¬(kv.1 = "system_prompt" ∨ kv.1 = "model")),
           { config := some [("model", Value.vstr "m"), ("temperature", Value.vnum 2 1),
                             ("max_tokens", Value.vint 100), ("system_prompt", Value.vstr "S"),
                             ("top_p", Value.vnum 9 1)],
             last_mtime := some 3 }) ∧
    ∀ (k : String) (v : Value),
      (k, v) ∈ ([("model", Value.vstr "m"), ("temperature", Value.vnum 2 1),
                 ("max_tokens", Value.vint 100), ("system_prompt", Value.vstr "S"),
                 ("top_p", Value.vnum 9 1)] : Config).filter
                  (fun kv => ¬(kv.1 = "system_prompt" ∨ kv.1 = "model")) ↔
        ((k, v) ∈ ([("model", Value.vstr "m"), ("temperature", Value.vnum 2 1),
                    ("max_tokens", Value.vint 100), ("system_prompt", Value.vstr "S"),
                    ("top_p", Value.vnum 9 1)] : Config) ∧
          k ≠ "model" ∧ k ≠ "system_prompt") :=
  build_api_params_forwarding _ none _ _ rfl rfl rfl rfl

/-- Helper: `get_session` returns the stored log of the session (empty when
unknown). -/
theorem get_session_fst (mem : Memory) (session_id : String) :
    (get_session mem session_id).1 = storedLog mem session_id := by
  unfold get_session storedLog
  cases h : memLookup mem session_id <;> simp [h]

/-- Appending a fresh binding is found by a lookup of its key when no
earlier binding matches. -/
theorem memLookup_append_new (mem : Memory) (session_id : String) (l : List Msg)
    (h : memLookup mem session_id = none) :
    memLookup (mem ++ [(session_id, l)]) session_id = some l := by
  induction mem with
  | nil => simp [memLookup]
  | cons s rest ih =>
    unfold memLookup at h ⊢
    rw [List.cons_append, List.find?_cons] at *
    cases hs : (decide (s.1 = session_id)) with
    | true => simp [hs] at h
    | false =>
      simp only [hs] at h ⊢
      exact ih h

/-- After `get_session`, the session is registered and its stored log is
what it was before. -/
theorem memLookup_get_session_snd (mem : Memory) (session_id : String) :
    memLookup (get_session mem session_id).2 session_id =
      some (storedLog mem session_id) := by
  unfold get_session storedLog
  cases h : memLookup mem session_id with
  | some l => simpa [h] using h
  | none => simpa [h] using memLookup_append_new mem session_id [] h

/-- Helper: `get_session` does not change any session's stored log. -/
theorem storedLog_get_session_snd (mem : Memory) (session_id : String) :
    storedLog (get_session mem session_id).2 session_id =
      storedLog mem session_id := by
  unfold storedLog
  rw [memLookup_get_session_snd]
  rfl

/-- Helper: `add_message` appends to the stored log of a registered session. -/
theorem add_message_memLookup (mem : Memory) (session_id : String) (m : Msg)
    (l : List Msg) (h : memLookup mem session_id = some l) :
    memLookup (add_message mem session_id m) session_id = some (l ++ [m]) := by
  induction mem with
  | nil => simp [memLookup] at h
  | cons s rest ih =>
    unfold add_message
    by_cases hs : s.1 = session_id
    · rw [if_pos hs]
      unfold memLookup at h ⊢
      simp [List.find?_cons, hs] at h ⊢
      exact h
    · rw [if_neg hs]
      unfold memLookup at h ⊢
      simp only [List.find?_cons, hs, decide_False] at h ⊢
      exact ih h

/-- Helper: `build_messages` under a cached configuration and a loaded primary
template: optional system message, stored history, current human message;
the only state change is the (possible) registration of the session. -/
theorem build_messages_eq (st : SvcState) (fsC : Option ConfigLoader.FileState)
    (fsP : Option TFile) (user_input session_id : String)
    (cfg : Config) (tpl : String → Config → String)
    (hcfg : st.loader.config = some cfg)
    (htpl : st.pb.template = some tpl) :
    build_messages st fsC fsP user_input session_id =
      .ok ((if (dictGetD cfg "system_prompt" (Value.vstr "")).truthy
              then [Msg.system (tpl user_input cfg)] else []) ++
             storedLog st.sessions session_id ++ [Msg.human user_input],
           { st with sessions := (get_session st.sessions session_id).2 }) := by
  unfold build_messages
  rw [ConfigLoader.get_config_cached _ _ _ hcfg]
  dsimp only
  by_cases hb : (dictGetD cfg "system_prompt" (Value.vstr "")).truthy = true
  · rw [if_pos hb, if_pos hb, PromptBuilder.render_loaded _ _ _ _ _ htpl]
    dsimp only [Except.map]
    rw [← get_session_fst]
  · rw [if_neg hb, if_neg hb]
    dsimp only
    rw [← get_session_fst]

/-- C1: with a cached configuration whose `system_prompt` is the string
`s`, a loaded primary template, and `2*N` stored messages, the built
sequence is `[system?] ++ history ++ [current human]` in exactly that
order, the system message present iff `s` is non-empty, and the total
length is `N*2 + (1 if system else 0) + 1`. -/
theorem build_messages_ordering (st : SvcState)
    (fsC : Option ConfigLoader.FileState) (fsP : Option TFile)
    (cfg : Config) (s : String) (tpl : String → Config → String)
    (user_input session_id : String) (N : Nat)
    (hcfg : st.loader.config = some cfg)
    (hsys : dictGetD cfg "system_prompt" (Value.vstr "") = Value.vstr s)
    (htpl : st.pb.template = some tpl)
    (hlen : (storedLog st.sessions session_id).length = 2 * N) :
    build_messages st fsC fsP user_input session_id =
      .ok ((if s ≠ "" then [Msg.system (tpl user_input cfg)] else []) ++
             storedLog st.sessions session_id ++ [Msg.human user_input],
           { st with sessions := (get_session st.sessions session_id).2 }) ∧
    ((if s ≠ "" then [Msg.system (tpl user_input cfg)] else []) ++
       storedLog st.sessions session_id ++ [Msg.human user_input]).length =
      N * 2 + (if s ≠ "" then 1 else 0) + 1 := by
  have hb := build_messages_eq st fsC fsP user_input session_id cfg tpl hcfg htpl
  rw [hsys] at hb
  constructor
  · by_cases hs : s = "" <;> simp [hs, Value.truthy] at hb ⊢ <;> exact hb
  · by_cases hs : s = "" <;> simp [hs, List.length_append, hlen] <;> omega

/-- Witness for C1: one stored turn (N = 1), non-empty system prompt. -/
theorem build_messages_ordering_witness :
    build_messages
      { loader := { config := some [("model", Value.vstr "m"),
                                    ("system_prompt", Value.vstr "S")],
                    last_mtime := some 0 },
        pb := { template := some (fun ui _ => ui), last_mtime := some 0,
                user_template := none, user_last_mtime := none },
        sessions := [("a", [Msg.human "q", Msg.ai "r"])] }
      none none "Hi" "a" =
      .ok ((if ("S" : String) ≠ "" then [Msg.system "Hi"] else []) ++
             storedLog [("a", [Msg.human "q", Msg.ai "r"])] "a" ++ [Msg.human "Hi"],
           { loader := { config := some [("model", Value.vstr "m"),
                                         ("system_prompt", Value.vstr "S")],
                         last_mtime := some 0 },
             pb := { template := some (fun ui _ => ui), last_mtime := some 0,
                     user_template := none, user_last_mtime := none },
             sessions := (get_session [("a", [Msg.human "q", Msg.ai "r"])] "a").2 }) ∧
    ((if ("S" : String) ≠ "" then [Msg.system "Hi"] else []) ++
       storedLog [("a", [Msg.human "q", Msg.ai "r"])] "a" ++ [Msg.human "Hi"]).length =
      1 * 2 + (if ("S" : String) ≠ "" then 1 else 0) + 1 :=
  build_messages_ordering
    { loader := { config := some [("model", Value.vstr "m"),
                                  ("system_prompt", Value.vstr "S")],
                  last_mtime := some 0 },
      pb := { template := some (fun ui _ => ui), last_mtime := some 0,
              user_template := none, user_last_mtime := none },
      sessions := [("a", [Msg.human "q", Msg.ai "r"])] }
    none none
    [("model", Value.vstr "m"), ("system_prompt", Value.vstr "S")]
    "S" (fun ui _ => ui) "Hi" "a" 1 rfl rfl rfl rfl

/-- Under a cached configuration with a `model` key, `build_api_params`
succeeds and leaves the loader state unchanged. -/
theorem build_api_params_cached (st : ConfigLoader.State)
    (fsC : Option ConfigLoader.FileState) (cfg : Config) (model : Value)
    (hcfg : st.config = some cfg) (hmodel : dictGet cfg "model" = some model) :
    build_api_params st fsC =
      .ok (model,
           cfg.foldl
             (fun acc kv =>
               if kv.1 = "system_prompt" ∨ kv.1 = "model" then acc else acc ++ [kv])
             [],
           st) := by
  unfold build_api_params
  rw [ConfigLoader.get_config_cached _ _ _ hcfg]
  dsimp only
  rw [hmodel]

/-- Helper: `dispatch_and_persist` always records exactly the entry it was given. -/
theorem dispatch_and_persist_log (t : Transport) (model : Value)
    (msgs : List Msg) (kw : List (String × Value)) (entry : LogEntry)
    (st : SvcState) (ui sid : String) :
    (dispatch_and_persist t model msgs kw entry st ui sid).2.1 = some entry := by
  unfold dispatch_and_persist
  cases t model msgs kw <;> rfl

/-- Helper: `send_message` under a cached configuration with a `model` key and a
loaded primary template reduces to a single `dispatch_and_persist` whose
input state has (only) the session registered. -/
theorem send_message_eq_dispatch (st : SvcState)
    (fsC : Option ConfigLoader.FileState) (fsP fsU : Option TFile)
    (transport : Transport) (user_input session_id : String) (logf : Bool)
    (cfg : Config) (model : Value) (tpl : String → Config → String)
    (hcfg : st.loader.config = some cfg)
    (hmodel : dictGet cfg "model" = some model)
    (htpl : st.pb.template = some tpl) :
    ∃ (msgs : List Msg) (kwargs : List (String × Value)) (entry : LogEntry)
      (stA : SvcState),
      send_message st fsC fsP fsU transport user_input session_id logf =
        dispatch_and_persist transport model msgs kwargs entry stA
          user_input session_id ∧
      stA.sessions = (get_session st.sessions session_id).2 := by
  unfold send_message
  rw [build_messages_eq st fsC fsP user_input session_id cfg tpl hcfg htpl]
  dsimp only
  rw [build_api_params_cached st.loader fsC cfg model hcfg hmodel]
  dsimp only
  cases logf with
  | true =>
    rw [if_pos rfl]
    exact ⟨_, _, _, _, rfl, rfl⟩
  | false =>
    rw [if_neg Bool.false_ne_true]
    rw [ConfigLoader.get_config_cached _ _ _ hcfg]
    dsimp only
    by_cases hb : (dictGetD cfg "system_prompt" (Value.vstr "")).truthy = true
    · rw [if_pos hb, PromptBuilder.render_loaded _ _ _ _ _ htpl]
      dsimp only [Except.map]
      exact ⟨_, _, _, _, rfl, rfl⟩
    · rw [if_neg hb]
      dsimp only
      exact ⟨_, _, _, _, rfl, rfl⟩

/-- C2: with a cached configuration holding a `model` key and a loaded
primary template, a failing transport call leaves the session's message
log unchanged while the error propagates; a successful call appends
exactly the human message and the assistant reply, in that order. -/
theorem send_message_persistence (st : SvcState)
    (fsC : Option ConfigLoader.FileState) (fsP fsU : Option TFile)
    (transport : Transport) (user_input session_id : String) (logf : Bool)
    (cfg : Config) (model : Value) (tpl : String → Config → String)
    (hcfg : st.loader.config = some cfg)
    (hmodel : dictGet cfg "model" = some model)
    (htpl : st.pb.template = some tpl) :
    (∀ e, (send_message st fsC fsP fsU transport user_input session_id logf).1 =
            .error e →
        storedLog
          (send_message st fsC fsP fsU transport user_input session_id logf).2.2.sessions
          session_id = storedLog st.sessions session_id) ∧
    (∀ r, (send_message st fsC fsP fsU transport user_input session_id logf).1 =
            .ok r →
        storedLog
          (send_message st fsC fsP fsU transport user_input session_id logf).2.2.sessions
          session_id =
          storedLog st.sessions session_id ++ [Msg.human user_input, Msg.ai r]) := by
  obtain ⟨msgs, kwargs, entry, stA, heq, hsess⟩ :=
    send_message_eq_dispatch st fsC fsP fsU transport user_input session_id logf
      cfg model tpl hcfg hmodel htpl
  have hA : storedLog stA.sessions session_id = storedLog st.sessions session_id := by
    rw [hsess]
    exact storedLog_get_session_snd _ _
  rw [heq]
  constructor
  · intro e he
    unfold dispatch_and_persist at he ⊢
    cases htr : transport model msgs kwargs with
    | error e' =>
      dsimp only
      exact hA
    | ok r =>
      rw [htr] at he
      simp at he
  · intro r hr
    unfold dispatch_and_persist at hr ⊢
    cases htr : transport model msgs kwargs with
    | error e' =>
      rw [htr] at hr
      simp at hr
    | ok resp =>
      rw [htr] at hr
      dsimp only at hr ⊢
      have hresp : resp = r := by simpa using hr
      subst hresp
      have h1 : memLookup (get_session stA.sessions session_id).2 session_id =
          some (storedLog stA.sessions session_id) :=
        memLookup_get_session_snd _ _
      have h2 := add_message_memLookup _ session_id (Msg.human user_input) _ h1
      have h3 := add_message_memLookup _ session_id (Msg.ai resp) _ h2
      have hfin : storedLog
          (add_message
            (add_message (get_session stA.sessions session_id).2 session_id
              (Msg.human user_input))
            session_id (Msg.ai resp)) session_id =
          storedLog stA.sessions session_id ++ [Msg.human user_input] ++ [Msg.ai resp] := by
        unfold storedLog
        rw [h3]
        rfl
      rw [hfin, hA, List.append_assoc]
      rfl

/-- Witness for C2 at a concrete service: a failing transport keeps the
log empty, a succeeding one appends the turn. -/
theorem send_message_persistence_witness :
    (storedLog
       (send_message svc8 none none none (fun _ _ _ => .error "boom") "Hi" "a"
          false).2.2.sessions "a" = storedLog svc8.sessions "a") ∧
    (storedLog
       (send_message svc8 none none none transport8 "Hi" "a" false).2.2.sessions "a" =
       storedLog svc8.sessions "a" ++ [Msg.human "Hi", Msg.ai "Hello!"]) :=
  ⟨(send_message_persistence svc8 none none none (fun _ _ _ => .error "boom")
      "Hi" "a" false config8 (Value.vstr "m") specPrimaryTemplate rfl rfl rfl).1
      "boom" rfl,
   (send_message_persistence svc8 none none none transport8
      "Hi" "a" false config8 (Value.vstr "m") specPrimaryTemplate rfl rfl rfl).2
      "Hello!" rfl⟩

/-- C9: in current-turn logging mode the logged output of `send_message`
does not depend on the session store: two service states differing only
in their session memories log the same entry. -/
theorem send_message_log_independent_of_history
    (loader : ConfigLoader.State) (pb : PromptBuilder.State)
    (mem1 mem2 : Memory) (fsC : Option ConfigLoader.FileState)
    (fsP fsU : Option TFile) (transport : Transport) (ui sid : String) :
    (send_message ⟨loader, pb, mem1⟩ fsC fsP fsU transport ui sid false).2.1 =
    (send_message ⟨loader, pb, mem2⟩ fsC fsP fsU transport ui sid false).2.1 := by
  unfold send_message build_messages
  dsimp only
  cases hg : ConfigLoader.get_config loader fsC with
  | error e => rfl
  | ok p =>
    obtain ⟨cfg, ld'⟩ := p
    dsimp only
    cases hs : (if (dictGetD cfg "system_prompt" (Value.vstr "")).truthy = true then
                  Except.map (fun r => ([Msg.system r.1], r.2))
                    (PromptBuilder.render pb fsP ui cfg)
                else Except.ok ([], pb)) with
    | error e => rfl
    | ok q =>
      obtain ⟨sysMsgs, pb'⟩ := q
      dsimp only
      cases ha : build_api_params ld' fsC with
      | error e => rfl
      | ok t =>
        obtain ⟨model, rest⟩ := t
        obtain ⟨kwargs, ld2⟩ := rest
        dsimp only
        rw [if_neg Bool.false_ne_true, if_neg Bool.false_ne_true]
        cases hg2 : ConfigLoader.get_config ld2 fsC with
        | error e => rfl
        | ok p2 =>
          obtain ⟨cfg2, ld3⟩ := p2
          dsimp only
          cases hs2 : (if (dictGetD cfg2 "system_prompt" (Value.vstr "")).truthy = true then
                         Except.map (fun r => ([Msg.system r.1], r.2))
                           (PromptBuilder.render pb' fsP ui cfg2)
                       else Except.ok ([], pb')) with
          | error e => rfl
          | ok q2 =>
            obtain ⟨sys2, pb4⟩ := q2
            dsimp only
            rw [dispatch_and_persist_log, dispatch_and_persist_log]

/-- C10: `get_history` on an unknown id returns the empty projection and
registers an empty session; on a known id it returns the projection of
the stored log and leaves the memory unchanged; and a `send_message`
whose dispatch fails still leaves the (previously unknown) session
registered empty, because `build_messages` already registered it. -/
theorem get_history_frame_effect :
    (∀ (mem : Memory) (session_id : String),
        memLookup mem session_id = none →
        get_history mem session_id = ([], mem ++ [(session_id, [])])) ∧
    (∀ (mem : Memory) (session_id : String) (l : List Msg),
        memLookup mem session_id = some l →
        get_history mem session_id = (l.map (fun m => (m.type, m.content)), mem)) ∧
    (∀ (st : SvcState) (fsC : Option ConfigLoader.FileState)
        (fsP fsU : Option TFile) (transport : Transport) (cfg : Config)
        (model : Value) (tpl : String → Config → String) (ui sid e : String),
        st.loader.config = some cfg → dictGet cfg "model" = some model →
        st.pb.template = some tpl → memLookup st.sessions sid = none →
        (send_message st fsC fsP fsU transport ui sid false).1 = .error e →
        (send_message st fsC fsP fsU transport ui sid false).2.2.sessions =
          st.sessions ++ [(sid, [])]) := by
  refine ⟨?_, ?_, ?_⟩
  · intro mem sid h
    have hgs : get_session mem sid = ([], mem ++ [(sid, [])]) := by
      unfold get_session
      rw [h]
    unfold get_history
    rw [hgs]
    rfl
  · intro mem sid l h
    have hgs : get_session mem sid = (l, mem) := by
      unfold get_session
      rw [h]
    unfold get_history
    rw [hgs]
  · intro st fsC fsP fsU transport cfg model tpl ui sid e hcfg hmodel htpl hnone herr
    obtain ⟨msgs, kwargs, entry, stA, heq, hsess⟩ :=
      send_message_eq_dispatch st fsC fsP fsU transport ui sid false
        cfg model tpl hcfg hmodel htpl
    rw [heq] at herr ⊢
    unfold dispatch_and_persist at herr ⊢
    cases htr : transport model msgs kwargs with
    | error e' =>
      dsimp only
      rw [hsess]
      unfold get_session
      rw [hnone]
    | ok r =>
      rw [htr] at herr
      simp at herr

/-- Witness for C10: unknown and known session ids, and a failing
transport on a fresh session id. -/
theorem get_history_frame_effect_witness :
    get_history [] "a" = ([], [("a", [])]) ∧
    get_history [("a", [Msg.human "q"])] "a" =
      ([("human", "q")], [("a", [Msg.human "q"])]) ∧
    (send_message svc8 none none none (fun _ _ _ => .error "down") "Hi" "b"
        false).2.2.sessions = svc8.sessions ++ [("b", [])] :=
  ⟨get_history_frame_effect.1 [] "a" rfl,
   get_history_frame_effect.2.1 [("a", [Msg.human "q"])] "a" [Msg.human "q"] rfl,
   get_history_frame_effect.2.2 svc8 none none none (fun _ _ _ => .error "down")
     config8 (Value.vstr "m") specPrimaryTemplate "Hi" "b" "down"
     rfl rfl rfl rfl rfl⟩

/-- C8: the end-to-end scenario: with configuration
`{model:"m", temperature:0.2, max_tokens:100, system_prompt:"You are S"}`,
an empty session and input `"Hi"`, `build_messages` yields exactly
`[System("You are S"), Human("Hi")]`; after the stubbed transport reply
`"Hello!"`, `get_history` returns `[{human,"Hi"},{ai,"Hello!"}]`. -/
theorem end_to_end_scenario :
    (build_messages svc8 none none "Hi" "default").map (fun r => r.1) =
      .ok [Msg.system "You are S", Msg.human "Hi"] ∧
    (send_message svc8 none none none transport8 "Hi" "default" false).1 =
      .ok "Hello!" ∧
    (get_history
       (send_message svc8 none none none transport8 "Hi" "default" false).2.2.sessions
       "default").1 = [("human", "Hi"), ("ai", "Hello!")] :=
  ⟨rfl, rfl, rfl⟩

end OneCore
